import Mathlib

/-
  Shallow embedding of the CVE synchronization service (src/cve/utils.py,
  src/cve/views.py) and proofs about its specified behaviour.

  JSON documents are modelled as association lists of string keys and JSON
  values; machine dictionaries, the Mongo collection, the aiohttp upstream
  and the module-level watermark become explicit parameters and state.
-/

namespace NvdCve

/-- A JSON value, as handled by the service (numbers are modelled as
rationals, which is exact for the decimal CVSS scores the feed carries). -/
inductive Jv where
  | jnull : Jv
  | jbool : Bool → Jv
  | jnum : ℚ → Jv
  | jstr : String → Jv
  | jarr : List Jv → Jv
  | jobj : List (String × Jv) → Jv

/-- A JSON object / Python dict: an association list of fields. -/
abbrev Doc := List (String × Jv)

mutual

/-- Structural equality test on JSON values. -/
def jvBeq : Jv → Jv → Bool
  | Jv.jnull, Jv.jnull => true
  | Jv.jbool a, Jv.jbool b => a == b
  | Jv.jnum a, Jv.jnum b => a == b
  | Jv.jstr a, Jv.jstr b => a == b
  | Jv.jarr xs, Jv.jarr ys => jvBeqList xs ys
  | Jv.jobj xs, Jv.jobj ys => jvBeqKvs xs ys
  | _, _ => false

/-- Structural equality test on JSON arrays. -/
def jvBeqList : List Jv → List Jv → Bool
  | [], [] => true
  | x :: xs, y :: ys => jvBeq x y && jvBeqList xs ys
  | _, _ => false

/-- Structural equality test on JSON object fields. -/
def jvBeqKvs : List (String × Jv) → List (String × Jv) → Bool
  | [], [] => true
  | (k, x) :: xs, (l, y) :: ys => k == l && jvBeq x y && jvBeqKvs xs ys
  | _, _ => false

end

theorem jvBeq_iff_aux (n : Nat) :
    (∀ a b : Jv, sizeOf a < n → (jvBeq a b = true ↔ a = b)) ∧
    (∀ xs ys : List Jv, sizeOf xs < n → (jvBeqList xs ys = true ↔ xs = ys)) ∧
    (∀ xs ys : List (String × Jv), sizeOf xs < n →
      (jvBeqKvs xs ys = true ↔ xs = ys)) := by
  induction n with
  | zero =>
      refine ⟨fun a b h => absurd h (Nat.not_lt_zero _),
        fun xs ys h => absurd h (Nat.not_lt_zero _),
        fun xs ys h => absurd h (Nat.not_lt_zero _)⟩
  | succ n ih =>
      refine ⟨fun a b ha => ?_, fun xs ys hxs => ?_, fun xs ys hxs => ?_⟩
      · cases a <;> cases b <;> simp_all [jvBeq] <;>
          first
            | (rename_i xs ys
               have hlt : sizeOf xs < n := by simp_arith at ha; omega
               exact ih.2.1 xs ys hlt)
            | (rename_i xs ys
               have hlt : sizeOf xs < n := by simp_arith at ha; omega
               exact ih.2.2 xs ys hlt)
      · cases xs with
        | nil => cases ys <;> simp [jvBeqList]
        | cons x xs =>
            cases ys with
            | nil => simp [jvBeqList]
            | cons y ys =>
                have hx : sizeOf x < n := by simp_arith at hxs; omega
                have hxs' : sizeOf xs < n := by simp_arith at hxs; omega
                simp [jvBeqList, Bool.and_eq_true, ih.1 x y hx, ih.2.1 xs ys hxs']
      · cases xs with
        | nil => cases ys <;> simp [jvBeqKvs]
        | cons kx xs =>
            cases ys with
            | nil => obtain ⟨k, x⟩ := kx; simp [jvBeqKvs]
            | cons ly ys =>
                obtain ⟨k, x⟩ := kx
                obtain ⟨l, y⟩ := ly
                have hx : sizeOf x < n := by simp_arith at hxs; omega
                have hxs' : sizeOf xs < n := by simp_arith at hxs; omega
                simp [jvBeqKvs, Bool.and_eq_true, ih.1 x y hx, ih.2.2 xs ys hxs',
                  and_assoc]

theorem jvBeq_eq_true_iff (a b : Jv) : jvBeq a b = true ↔ a = b :=
  (jvBeq_iff_aux (sizeOf a + 1)).1 a b (Nat.lt_succ_self _)

instance : DecidableEq Jv := fun a b =>
  decidable_of_iff (jvBeq a b = true) (jvBeq_eq_true_iff a b)

/-- Python truthiness of a JSON value (`if x:`). -/
def jvTruthy : Jv → Bool
  | Jv.jnull => false
  | Jv.jbool b => b
  | Jv.jnum q => decide (q ≠ 0)
  | Jv.jstr s => !s.data.isEmpty
  | Jv.jarr xs => !xs.isEmpty
  | Jv.jobj kvs => !kvs.isEmpty

/-- Python truthiness of an optional string argument (`if x:` on a
parameter that is `None` or a `str`). -/
def optTruthy : Option String → Bool
  | none => false
  | some s => !s.data.isEmpty

/-- Characters before the first occurrence of `'T'` (the whole list when
`'T'` does not occur): the first element of Python `s.split("T")`. -/
def takeUntilT : List Char → List Char
  | [] => []
  | c :: cs => if c = 'T' then [] else c :: takeUntilT cs

/-- `s.split("T")[0]`. -/
def pySplitHeadT (s : String) : String := String.mk (takeUntilT s.data)

/-- `s.replace("Z", "+00:00")` on a character list (Python `str.replace`
replaces every occurrence). -/
def replaceZAux : List Char → List Char
  | [] => []
  | c :: cs =>
      if c = 'Z' then '+' :: '0' :: '0' :: ':' :: '0' :: '0' :: replaceZAux cs
      else c :: replaceZAux cs

/-- `s.replace("Z", "+00:00")` (utils.py:116,118). -/
def replaceZ (s : String) : String := String.mk (replaceZAux s.data)

/-- Lexicographic order on character lists: the comparison MongoDB applies
to string-typed fields in range queries. -/
def charListLe : List Char → List Char → Bool
  | [], _ => true
  | _ :: _, [] => false
  | a :: as, b :: bs => if a = b then charListLe as bs else decide (a < b)

/-- String comparison used for the `lastModified` range query. -/
def strLe (a b : String) : Bool := charListLe a.data b.data

/-- `d.get(k)` on a Python dict: first binding of the key, if any. -/
def getVal : Doc → String → Option Jv
  | [], _ => none
  | (k, v) :: rest, f => if k = f then some v else getVal rest f

/-- `d[k] = v` on a Python dict: replace the binding in place, appending
when the key is absent. -/
def setVal : Doc → String → Jv → Doc
  | [], f, v => [(f, v)]
  | (k, w) :: rest, f, v =>
      if k = f then (k, v) :: rest else (k, w) :: setVal rest f v

/-- The known date fields processed by `clean_cve_data` (utils.py:205). -/
def dateFields : List String := [("published"), ("lastModified")]

/-- `cve_data[date_field].split("T")[0]` wrapped in `try/except`:
a string is truncated at the first date/time separator (`split` never
raises on a string); any non-string value makes `.split` raise, the
exception is caught and the field is set to `None` (utils.py:208-212). -/
def cleanField : Jv → Jv
  | Jv.jstr s => Jv.jstr (pySplitHeadT s)
  | _ => Jv.jnull

/-- One iteration of the `for date_field in date_fields` loop in
`clean_cve_data`: fields that are absent are left untouched. -/
def cleanOneField (d : Doc) (f : String) : Doc :=
  match getVal d f with
  | some v => setVal d f (cleanField v)
  | none => d

/-- `clean_cve_data` (utils.py:195-213). -/
def clean_cve_data (d : Doc) : Doc :=
  List.foldl cleanOneField d dateFields

mutual

/-- MongoDB dot-path equality match: `{"a.b.c": v}` matches a document
when walking the path — descending into object fields and fanning out
over array elements — reaches a value equal to `v` (or an array
containing `v`). -/
def jvPathMatch : Jv → List String → Jv → Bool
  | x, [], v =>
      jvBeq x v ||
        (match x with
         | Jv.jarr xs => jvLeafAny xs v
         | _ => false)
  | Jv.jobj kvs, f :: rest, v => jvPathMatchField kvs f rest v
  | Jv.jarr xs, f :: rest, v => jvPathMatchList xs (f :: rest) v
  | _, _ :: _, _ => false

/-- Array leaf: some element equals the queried value. -/
def jvLeafAny : List Jv → Jv → Bool
  | [], _ => false
  | x :: xs, v => jvBeq x v || jvLeafAny xs v

/-- Array fan-out along a non-empty path. -/
def jvPathMatchList : List Jv → List String → Jv → Bool
  | [], _, _ => false
  | x :: xs, p, v => jvPathMatch x p v || jvPathMatchList xs p v

/-- Field lookup step of the path walk. -/
def jvPathMatchField : List (String × Jv) → String → List String → Jv → Bool
  | [], _, _, _ => false
  | (k, y) :: kvs, f, rest, v =>
      if k = f then jvPathMatch y rest v else jvPathMatchField kvs f rest v

end

/-- The CVSS v2 score path queried by `fetch_filtered_cve_data`
(utils.py:234). -/
def scorePathV2 : List String :=
  [("metrics"), ("cvssMetricV2"), ("cvssData"), ("baseScore")]

/-- The CVSS v3 score path queried by `fetch_filtered_cve_data`
(utils.py:235). -/
def scorePathV3 : List String :=
  [("metrics"), ("cvssMetricV3"), ("cvssData"), ("baseScore")]

/-- A record carries a v2 score structure equal to `b`. -/
def scoreMatchV2 (d : Doc) (b : ℚ) : Bool :=
  jvPathMatch (Jv.jobj d) scorePathV2 (Jv.jnum b)

/-- A record carries a v3 score structure equal to `b`. -/
def scoreMatchV3 (d : Doc) (b : ℚ) : Bool :=
  jvPathMatch (Jv.jobj d) scorePathV3 (Jv.jnum b)

/-- `{"lastModified": {"$gte": a, "$lte": b}}` on the string-typed
`lastModified` field: MongoDB compares strings lexicographically and
type-brackets, so only string values fall in a string range. -/
def lastModRangeMatch (d : Doc) (a b : String) : Bool :=
  match getVal d ("lastModified") with
  | some (Jv.jstr s) => strLe a s && strLe s b
  | _ => false

/-- The query dict built by `fetch_filtered_cve_data` (utils.py:227-244):
an optional exact-id key, an optional `$or` pair of score-equality
clauses, and an optional `lastModified` range. -/
structure MongoQuery where
  idEq : Option Jv
  scoreEither : Option ℚ
  lastModRange : Option (String × String)
  deriving DecidableEq

/-- `cve_collection.find(query)` membership test for the queries the
service builds. -/
def matchesQuery (q : MongoQuery) (d : Doc) : Bool :=
  (match q.idEq with
   | none => true
   | some v => jvPathMatch (Jv.jobj d) [("id")] v) &&
  (match q.scoreEither with
   | none => true
   | some b => scoreMatchV2 d b || scoreMatchV3 d b) &&
  (match q.lastModRange with
   | none => true
   | some ab => lastModRangeMatch d ab.1 ab.2)

def usPerSec : Int := 1000000

def usPerDay : Int := 86400000000

/-- Days since 1970-01-01 of a proleptic-Gregorian calendar date
(standard civil-from-days algorithm, with Euclidean division so the
era arithmetic is exact for every year). -/
def daysFromCivil (y m d : Int) : Int :=
  let y2 := if m ≤ 2 then y - 1 else y
  let era := Int.ediv y2 400
  let yoe := y2 - era * 400
  let mp := Int.emod (m + 9) 12
  let doy := Int.ediv (153 * mp + 2) 5 + d - 1
  let doe := yoe * 365 + Int.ediv yoe 4 - Int.ediv yoe 100 + doy
  era * 146097 + doe - 719468

/-- Calendar date (year, month, day) of a day count since 1970-01-01. -/
def civilFromDays (z : Int) : Int × Int × Int :=
  let z2 := z + 719468
  let era := Int.ediv z2 146097
  let doe := z2 - era * 146097
  let yoe :=
    Int.ediv (doe - Int.ediv doe 1460 + Int.ediv doe 36524 - Int.ediv doe 146096) 365
  let y := yoe + era * 400
  let doy := doe - (365 * yoe + Int.ediv yoe 4 - Int.ediv yoe 100)
  let mp := Int.ediv (5 * doy + 2) 153
  let d := doy - Int.ediv (153 * mp + 2) 5 + 1
  let m := mp + (if mp < 10 then 3 else -9)
  (if m ≤ 2 then y + 1 else y, m, d)

def pad2 (n : Int) : String := (if n < 10 then ("0") else ("")) ++ toString n

def pad4 (n : Int) : String :=
  (if n < 10 then ("000") else if n < 100 then ("00")
   else if n < 1000 then ("0") else ("")) ++ toString n

def pad6 (n : Int) : String :=
  (if n < 10 then ("00000") else if n < 100 then ("0000")
   else if n < 1000 then ("000") else if n < 10000 then ("00")
   else if n < 100000 then ("0") else ("")) ++ toString n

/-- `datetime.fromtimestamp(t/10^6, timezone.utc).isoformat()` for a time
`t` in microseconds since the epoch: Python renders `".ffffff"` exactly
when the microsecond part is nonzero and the UTC offset as `"+00:00"`. -/
def isoOfUs (t : Int) : String :=
  let us := Int.emod t usPerSec
  let secs := Int.ediv t usPerSec
  let days := Int.ediv secs 86400
  let sod := Int.emod secs 86400
  match civilFromDays days with
  | (y, m, d) =>
      pad4 y ++ ("-") ++ pad2 m ++ ("-") ++ pad2 d ++ ("T") ++
      pad2 (Int.ediv sod 3600) ++ (":") ++
      pad2 (Int.emod (Int.ediv sod 60) 60) ++ (":") ++
      pad2 (Int.emod sod 60) ++
      (if us = 0 then ("") else (".") ++ pad6 us) ++ ("+00:00")

/-- The query dict assembled by `fetch_filtered_cve_data`
(utils.py:227-244): a truthy `cve_id` adds an exact-id clause, a truthy
(hence nonzero) `base_score` adds the `$or` score-equality clause, a
non-`None` `last_modified_days` adds the `[now - N days, now]` range on
`lastModified`. -/
def buildFilterQuery (cveId : Option String) (baseScore : Option ℚ)
    (lastModifiedDays : Option Int) (nowUs : Int) : MongoQuery :=
  MongoQuery.mk
    (match cveId with
     | some c => if !c.data.isEmpty then some (Jv.jstr c) else none
     | none => none)
    (match baseScore with
     | some b => if decide (b ≠ 0) then some b else none
     | none => none)
    (match lastModifiedDays with
     | some n => some (isoOfUs (nowUs - n * usPerDay), isoOfUs nowUs)
     | none => none)

/-- The successful path of `fetch_filtered_cve_data` (utils.py:249-252):
`list(cve_collection.find(query))` filters the stored records by the
built query. -/
def fetch_filtered_core (store : List Doc) (cveId : Option String)
    (baseScore : Option ℚ) (lastModifiedDays : Option Int) (nowUs : Int) :
    List Doc :=
  store.filter (fun d =>
    matchesQuery (buildFilterQuery cveId baseScore lastModifiedDays nowUs) d)

/-- `fetch_filtered_cve_data` (utils.py:215-255): the store read is
fallible; on any raised failure the `except` branch logs and returns the
empty list instead of propagating. -/
def fetch_filtered_cve_data (findRes : Except String (List Doc))
    (cveId : Option String) (baseScore : Option ℚ)
    (lastModifiedDays : Option Int) (nowUs : Int) : List Doc :=
  match findRes with
  | Except.error _ => []
  | Except.ok store => fetch_filtered_core store cveId baseScore lastModifiedDays nowUs

/-- 7.4 as an exact rational. -/
def q74 : ℚ := ⟨37, 5, by decide, by decide⟩

/-- 7.5 as an exact rational. -/
def q75 : ℚ := ⟨15, 2, by decide, by decide⟩

/-- 7.6 as an exact rational. -/
def q76 : ℚ := ⟨38, 5, by decide, by decide⟩

/-- A stored record shaped like an NVD record: an id and a single CVSS v3
metric entry whose `cvssData.baseScore` is `s`. -/
def scoreDoc (i : String) (s : ℚ) : Doc :=
  [(("id"), Jv.jstr i),
   (("metrics"), Jv.jobj
     [(("cvssMetricV3"), Jv.jarr
       [Jv.jobj [(("cvssData"), Jv.jobj [(("baseScore"), Jv.jnum s)])]])])]

/-- Parse exactly `n` decimal digits, accumulating their value. -/
def parseNDigits : Nat → Nat → List Char → Option (Nat × List Char)
  | 0, acc, cs => some (acc, cs)
  | n + 1, acc, c :: cs =>
      if c.isDigit then parseNDigits n (acc * 10 + (c.toNat - 48)) cs else none
  | _ + 1, _, [] => none

/-- Longest prefix of decimal digits and the remainder. -/
def takeDigits : List Char → List Char × List Char
  | [] => ([], [])
  | c :: cs =>
      if c.isDigit then
        let r := takeDigits cs
        (c :: r.1, r.2)
      else ([], c :: cs)

/-- Numeric value of a digit list. -/
def digitsToNat (ds : List Char) : Nat :=
  ds.foldl (fun a c => a * 10 + (c.toNat - 48)) 0

/-- An optional fractional-second part: `.` followed by exactly 3 or 6
digits (the two lengths `fromisoformat` accepts), in microseconds. -/
def parseFraction : List Char → Option (Nat × List Char)
  | '.' :: cs =>
      let r := takeDigits cs
      if r.1.length = 6 then some (digitsToNat r.1, r.2)
      else if r.1.length = 3 then some (digitsToNat r.1 * 1000, r.2)
      else none
  | cs => some (0, cs)

/-- A time-of-day reading `HH[:MM[:SS[.fff/.ffffff]]]`, in hours,
minutes, seconds and microseconds. -/
def parseHMS (cs : List Char) : Option (Nat × Nat × Nat × Nat × List Char) := do
  let (h, cs1) ← parseNDigits 2 0 cs
  match cs1 with
  | ':' :: cs2 => do
      let (mi, cs3) ← parseNDigits 2 0 cs2
      match cs3 with
      | ':' :: cs4 => do
          let (sec, cs5) ← parseNDigits 2 0 cs4
          let (us, cs6) ← parseFraction cs5
          pure (h, mi, sec, us, cs6)
      | _ => pure (h, mi, 0, 0, cs3)
  | _ => pure (h, 0, 0, 0, cs1)

/-- Whether a (proleptic Gregorian) year is a leap year. -/
def isLeapYear (y : Nat) : Bool :=
  (y % 4 = 0 && y % 100 ≠ 0) || y % 400 = 0

/-- Days in a month. -/
def daysInMonth (y m : Nat) : Nat :=
  if m = 2 then (if isLeapYear y then 29 else 28)
  else if m = 4 || m = 6 || m = 9 || m = 11 then 30
  else 31

/-- Microseconds since the epoch of a local calendar/clock reading. -/
def dtUs (y mo d h mi sec us : Nat) : Int :=
  daysFromCivil (y : Int) (mo : Int) (d : Int) * usPerDay
    + ((h * 3600 + mi * 60 + sec) * 1000000 + us : Nat)

/-- A timezone suffix `HH:MM[:SS]` after the sign: Python builds
`timezone(timedelta(...))`, which requires the absolute offset to be
strictly below 24 hours but places no per-component bound. -/
def parseTzTail (sign : Int) (cs : List Char) : Option Int := do
  let (oh, cs1) ← parseNDigits 2 0 cs
  match cs1 with
  | ':' :: cs2 => do
      let (om, cs3) ← parseNDigits 2 0 cs2
      match cs3 with
      | ':' :: cs4 => do
          let (osec, cs5) ← parseNDigits 2 0 cs4
          if cs5 = [] ∧ (oh * 3600 + om * 60 + osec) < 86400 then
            pure (sign * ((oh * 3600 + om * 60 + osec : Nat) : Int) * usPerSec)
          else none
      | _ =>
          if cs3 = [] ∧ (oh * 3600 + om * 60) < 86400 then
            pure (sign * ((oh * 3600 + om * 60 : Nat) : Int) * usPerSec)
          else none
  | _ => none

/-- Model of `datetime.fromisoformat`: a date `YYYY-MM-DD`, optionally
followed by a single separator character and a time of day, optionally
followed by a UTC offset.  Returns the local reading in microseconds
since the epoch together with the offset in microseconds when one is
present (an "aware" datetime) — `none` for a naive one.  Out-of-range
components fail, as the `datetime` constructor raises `ValueError`. -/
def fromIso (s : String) : Option (Int × Option Int) := do
  let (y, cs1) ← parseNDigits 4 0 s.data
  match cs1 with
  | '-' :: cs2 => do
      let (mo, cs3) ← parseNDigits 2 0 cs2
      match cs3 with
      | '-' :: cs4 => do
          let (d, cs5) ← parseNDigits 2 0 cs4
          if 1 ≤ y ∧ 1 ≤ mo ∧ mo ≤ 12 ∧ 1 ≤ d ∧ d ≤ daysInMonth y mo then
            match cs5 with
            | [] => pure (dtUs y mo d 0 0 0 0, none)
            | _sep :: cs6 => do
                let (h, mi, sec, us, cs7) ← parseHMS cs6
                if h ≤ 23 ∧ mi ≤ 59 ∧ sec ≤ 59 then
                  match cs7 with
                  | [] => pure (dtUs y mo d h mi sec us, none)
                  | '+' :: cs8 => do
                      let off ← parseTzTail 1 cs8
                      pure (dtUs y mo d h mi sec us, some off)
                  | '-' :: cs8 => do
                      let off ← parseTzTail (-1) cs8
                      pure (dtUs y mo d h mi sec us, some off)
                  | _ :: _ => none
                else none
          else none
      | _ => none
  | _ => none

/-- `datetime.fromisoformat(x.replace("Z", "+00:00"))`, the window-date
parse in `synchronize_cve_data` (utils.py:115-118). -/
def parseWindowDate (s : String) : Option (Int × Option Int) :=
  fromIso (replaceZ s)

/-- `end_date - start_date` on parsed datetimes: Python subtracts the
UTC-adjusted readings when both are naive or both aware, and raises
`TypeError` (which `except ValueError` does not catch) on a mixed pair —
modelled as `none`. -/
def dtSub : Int × Option Int → Int × Option Int → Option Int
  | (a, none), (b, none) => some (a - b)
  | (a, some oa), (b, some ob) => some ((a - oa) - (b - ob))
  | _, _ => none

/-- `timedelta(days=120)` in microseconds. -/
def days120us : Int := 120 * usPerDay

/-- One page of the upstream feed as the loop consumes it:
`data.get("totalResults", 0)`, `data.get("vulnerabilities", [])` (a list
of wrapper objects) and `data.get("timestamp")` (present on the
metadata call). -/
structure Page where
  totalResults : Nat
  vulnerabilities : List Doc
  timestamp : Option String
  deriving DecidableEq

/-- A request the service can make of the upstream API: a page request
carrying `startIndex`, `resultsPerPage` and the optional window
parameters, or the parameterless metadata request used to read the feed
timestamp (utils.py:140). -/
inductive Req where
  | page : Nat → Nat → Option (String × String) → Req
  | meta : Req
  deriving DecidableEq

/-- `vulnerability.get("cve", {})` (utils.py:157); the feed's wrapper
objects carry object-valued `cve` fields. -/
def cveOf (w : Doc) : Doc :=
  match getVal w ("cve") with
  | some (Jv.jobj kvs) => kvs
  | _ => []

/-- The id value of a stored document under the id index (a missing
field is indexed as `null`). -/
def docIdKey (d : Doc) : Jv := (getVal d ("id")).getD Jv.jnull

/-- `is_valid_cve` (utils.py:163-178): admissible iff the record's id is
truthy and `count_documents({"id": cve_id}, limit=1)` finds no stored
record with that id. -/
def is_valid_cve (store : List Doc) (cve : Doc) : Bool :=
  let idv := (getVal cve ("id")).getD Jv.jnull
  jvTruthy idv &&
    !(store.any (fun d2 => jvPathMatch (Jv.jobj d2) [("id")] idv))

/-- `prepare_bulk_operations` (utils.py:145-161): one `InsertOne` of the
cleaned record per admissible record; the duplicate check runs against
the store as it stands when the page is prepared. -/
def prepare_bulk_operations (store : List Doc) (vulns : List Doc) :
    List Doc :=
  vulns.filterMap (fun w =>
    let cve := cveOf w
    if is_valid_cve store cve then some (clean_cve_data cve) else none)

/-- Modelled from the spec: the document store itself (models.py, which
defines `cve_collection`, is not under src/) enforces the natural-id
uniqueness constraint the spec assigns to it (§6: "a uniqueness
constraint on id should be enforced by the store itself"; §4.4
duplicate-key conflicts), so an insert conflicts exactly when a stored
document already carries the same id value. -/
def insertConflicts (store : List Doc) (d : Doc) : Bool :=
  store.any (fun d2 => decide (docIdKey d2 = docIdKey d))

/-- `cve_collection.bulk_write(ops)` with pymongo's default
`ordered=True`: operations run serially and execution stops at the first
failed insert — earlier inserts remain committed, the conflicting insert
and everything after it are not applied, and the raised `BulkWriteError`
is caught and logged by the caller (utils.py:190-193). -/
def bulkWriteOrdered (store : List Doc) : List Doc → List Doc
  | [] => store
  | d :: rest =>
      if insertConflicts store d then store
      else bulkWriteOrdered (store ++ [d]) rest

/-- `execute_bulk_operations` (utils.py:180-193): an empty batch returns
immediately; otherwise one ordered bulk write, never retried. -/
def execute_bulk_operations (store : List Doc) (ops : List Doc) :
    List Doc :=
  if ops.isEmpty then store else bulkWriteOrdered store ops

/-- Loop-continuation test `start_index < total_results`, where
`total_results` starts as `float("inf")` (`none`). -/
def ltTotal (startIndex : Nat) : Option Nat → Bool
  | none => true
  | some t => decide (startIndex < t)

/-- One page's store update (utils.py:86-90): prepare the bulk
operations against the current store and execute them when nonempty. -/
def pageStore (store : List Doc) (page : Page) : List Doc :=
  if (prepare_bulk_operations store page.vulnerabilities).isEmpty then store
  else
    execute_bulk_operations store
      (prepare_bulk_operations store page.vulnerabilities)

/-- The `while` loop of `fetch_and_store_cve_data` (utils.py:65-97), with
explicit fuel bounding the number of iterations (the Python loop is just
as partial — it runs while the upstream keeps promising more results).
Returns the final store and the page requests issued, in order. -/
def fetchLoopAux (up : Req → Option Page) (rpp : Nat)
    (win : Option (String × String)) :
    Nat → Nat → Option Nat → List Doc → List Doc × List Req
  | 0, _, _, store => (store, [])
  | Nat.succ fuel, startIndex, total, store =>
      if ltTotal startIndex total then
        match up (Req.page startIndex rpp win) with
        | none => (store, [Req.page startIndex rpp win])
        | some page =>
            if page.vulnerabilities.isEmpty then
              (store, [Req.page startIndex rpp win])
            else
              ((fetchLoopAux up rpp win fuel (startIndex + rpp)
                  (some page.totalResults) (pageStore store page)).1,
               Req.page startIndex rpp win ::
                 (fetchLoopAux up rpp win fuel (startIndex + rpp)
                   (some page.totalResults) (pageStore store page)).2)
      else (store, [])

/-- Window query parameters are attached to a page request only when
both dates are truthy (utils.py:67-73). -/
def windowParams : Option String → Option String → Option (String × String)
  | some a, some b =>
      if !a.data.isEmpty && !b.data.isEmpty then some (a, b) else none
  | _, _ => none

/-- `fetch_and_store_cve_data` (utils.py:43-97), with its defaults
`start_index=0`, `results_per_page=2000` supplied by callers. -/
def fetch_and_store_cve_data (up : Req → Option Page)
    (startIndex rpp : Nat) (lastModStartDate lastModEndDate : Option String)
    (fuel : Nat) (store : List Doc) : List Doc × List Req :=
  fetchLoopAux up rpp (windowParams lastModStartDate lastModEndDate) fuel
    startIndex none store

/-- The module-level mutable state of utils.py: the stored collection
and the in-memory watermark `last_sync_timestamp` (line 15, `None` at
process start — it is not persisted anywhere). -/
structure SyncState where
  store : List Doc
  wm : Option String
  deriving DecidableEq

/-- How a `synchronize_cve_data` call ends: completing its body, or
aborting in window validation — the logged-and-returned window-too-large
and invalid-date paths (utils.py:119-126), or the uncaught `TypeError`
raised by subtracting a naive and an aware datetime (only `ValueError`
is caught). -/
inductive SyncOutcome where
  | completed : SyncOutcome
  | windowTooLarge : SyncOutcome
  | invalidDate : SyncOutcome
  | typeError : SyncOutcome
  deriving DecidableEq

/-- Result of one `synchronize_cve_data` run: the final module state,
how the run ended, every upstream request issued, and the window handed
to `fetch_and_store_cve_data` (`none` when the run aborted first). -/
structure RunResult where
  state : SyncState
  outcome : SyncOutcome
  reqs : List Req
  effWindow : Option (Option String × Option String)
  deriving DecidableEq

/-- The fetch-and-watermark tail of `synchronize_cve_data`
(utils.py:133-143) run with the final window `(w1, w2)`: fetch and
store, then issue the metadata request and set the watermark to
whatever timestamp the feed reports (`last_sync_timestamp` is left
unchanged when that call fails). -/
def syncBody (up : Req → Option Page) (fuel : Nat)
    (w1 w2 : Option String) (st : SyncState) : RunResult :=
  let fr := fetch_and_store_cve_data up 0 2000 w1 w2 fuel st.store
  match up Req.meta with
  | some page =>
      RunResult.mk (SyncState.mk fr.1 page.timestamp) SyncOutcome.completed
        (fr.2 ++ [Req.meta]) (some (w1, w2))
  | none =>
      RunResult.mk (SyncState.mk fr.1 st.wm) SyncOutcome.completed
        (fr.2 ++ [Req.meta]) (some (w1, w2))

/-- The post-validation body of `synchronize_cve_data`
(utils.py:128-143): both window variables are overwritten with the
synthesized incremental window `[watermark, now]` when a truthy
watermark exists and no full explicit window was given. -/
def syncFetchPhase (up : Req → Option Page) (fuel : Nat)
    (s e : Option String) (nowIso : String) (st : SyncState) : RunResult :=
  if optTruthy st.wm && !(optTruthy s && optTruthy e) then
    syncBody up fuel st.wm (some nowIso) st
  else syncBody up fuel s e st

/-- `synchronize_cve_data` (utils.py:99-143).  The `async with
sync_lock` serialization is modelled separately as a transition system;
this is the body one caller runs while holding the lock.  `nowIso` is
`datetime.now(timezone.utc).isoformat()`. -/
def synchronize_cve_data (up : Req → Option Page) (fuel : Nat)
    (lastModStartDate lastModEndDate : Option String) (nowIso : String)
    (st : SyncState) : RunResult :=
  if optTruthy lastModStartDate && optTruthy lastModEndDate then
    match parseWindowDate (lastModStartDate.getD (""))
        , parseWindowDate (lastModEndDate.getD ("")) with
    | some ds, some de =>
        match dtSub de ds with
        | some diff =>
            if diff > days120us then
              RunResult.mk st SyncOutcome.windowTooLarge [] none
            else syncFetchPhase up fuel lastModStartDate lastModEndDate nowIso st
        | none => RunResult.mk st SyncOutcome.typeError [] none
    | _, _ => RunResult.mk st SyncOutcome.invalidDate [] none
  else syncFetchPhase up fuel lastModStartDate lastModEndDate nowIso st

/-- `UpdateCveDataView.get` (views.py:15-35): the update endpoint awaits
`fetch_and_store_cve_data()` directly — default arguments, no window —
without the sync lock, and never touches the watermark. -/
def updateCveDataGet (up : Req → Option Page) (fuel : Nat)
    (st : SyncState) : SyncState × List Req :=
  let fr := fetch_and_store_cve_data up 0 2000 none none fuel st.store
  (SyncState.mk fr.1 st.wm, fr.2)

/-- Arguments of one `synchronize_cve_data` call in a sequence of runs. -/
structure RunSpec where
  up : Req → Option Page
  fuel : Nat
  startDate : Option String
  endDate : Option String
  nowIso : String

/-- One synchronize run acting on the module state. -/
def runSync (st : SyncState) (r : RunSpec) : SyncState :=
  (synchronize_cve_data r.up r.fuel r.startDate r.endDate r.nowIso st).state

/-- The id values of the stored documents, in store order. -/
def storeIds (store : List Doc) : List Jv := store.map docIdKey

/-- The store only ever grows: `l2` is `l1` with documents appended —
nothing is updated or deleted. -/
def storeExtends (l1 l2 : List Doc) : Prop := ∃ t, l2 = l1 ++ t

/-- An upstream wrapper object carrying one record with the given id. -/
def wrapOf (i : String) : Doc :=
  [(("cve"), Jv.jobj [(("id"), Jv.jstr i)])]

/-- Upstream for the first witness run: two pages claiming 4000 total
results, with a duplicate id inside page one and across the pages. -/
def upRun1 : Req → Option Page := fun r =>
  match r with
  | Req.page 0 _ _ =>
      some (Page.mk 4000 [wrapOf ("CVE-A"), wrapOf ("CVE-A")] none)
  | Req.page 2000 _ _ =>
      some (Page.mk 4000 [wrapOf ("CVE-A"), wrapOf ("CVE-B")] none)
  | Req.page _ _ _ => some (Page.mk 4000 [] none)
  | Req.meta => some (Page.mk 0 [] (some ("2024-01-01T00:00:00+00:00")))

/-- Upstream for the second witness run: it re-serves both ids. -/
def upRun2 : Req → Option Page := fun r =>
  match r with
  | Req.page 0 _ _ =>
      some (Page.mk 2 [wrapOf ("CVE-A"), wrapOf ("CVE-B")] none)
  | Req.page _ _ _ => some (Page.mk 2 [] none)
  | Req.meta => some (Page.mk 0 [] (some ("2024-01-02T00:00:00+00:00")))

/-- Two windowless synchronize runs over upstreams that repeat ids
within a page, across pages and across runs. -/
def c1Runs : List RunSpec :=
  [RunSpec.mk upRun1 3 none none ("2024-01-01T01:00:00+00:00"),
   RunSpec.mk upRun2 2 none none ("2024-01-02T01:00:00+00:00")]

/-- A stored record with id `CVE-A`. -/
def docA : Doc := [(("id"), Jv.jstr ("CVE-A"))]

/-- Another record with the already-stored id `CVE-A`. -/
def docA2 : Doc := [(("id"), Jv.jstr ("CVE-A")), (("x"), Jv.jnum 1)]

/-- A record with the fresh id `CVE-B`. -/
def docB : Doc := [(("id"), Jv.jstr ("CVE-B"))]

/-- Upstream with no vulnerabilities and a fixed feed timestamp. -/
def upC6 : Req → Option Page := fun r =>
  match r with
  | Req.meta => some (Page.mk 0 [] (some ("2024-01-01T00:00:00+00:00")))
  | Req.page _ _ _ => some (Page.mk 0 [] none)

/-- Control points of one `synchronize_cve_data` caller: before `async
with sync_lock` (utils.py:109), the three stages of the locked body —
window validation (112-126), the fetch loop (128-135), the watermark
update (137-143) — and after release. -/
inductive SyncPc where
  | start : SyncPc
  | validate : SyncPc
  | fetching : SyncPc
  | watermark : SyncPc
  | finished : SyncPc
  deriving DecidableEq

/-- Whether a control point lies inside the locked body. -/
def inBody : SyncPc → Bool
  | SyncPc.validate => true
  | SyncPc.fetching => true
  | SyncPc.watermark => true
  | _ => false

/-- Two concurrent `synchronize` callers sharing `sync_lock`: who holds
the lock, and each caller's control point. -/
structure LockState where
  holder : Option (Fin 2)
  pc : Fin 2 → SyncPc

/-- Both callers about to call `synchronize`, the `asyncio.Lock` free. -/
def lockInit : LockState :=
  LockState.mk none (fun _ => SyncPc.start)

/-- Interleaving semantics of the two callers: `async with sync_lock`
acquires only a free lock (a second caller keeps waiting — it is never
rejected), the body stages run only while holding the lock, and the
lock is released on every exit — the normal end of the watermark stage
or an early validation `return`. -/
inductive LockStep : LockState → LockState → Prop where
  | acquire (s : LockState) (i : Fin 2) :
      s.holder = none → s.pc i = SyncPc.start →
      LockStep s
        (LockState.mk (some i) (Function.update s.pc i SyncPc.validate))
  | validateOk (s : LockState) (i : Fin 2) :
      s.holder = some i → s.pc i = SyncPc.validate →
      LockStep s
        (LockState.mk s.holder (Function.update s.pc i SyncPc.fetching))
  | validateAbort (s : LockState) (i : Fin 2) :
      s.holder = some i → s.pc i = SyncPc.validate →
      LockStep s
        (LockState.mk none (Function.update s.pc i SyncPc.finished))
  | fetchDone (s : LockState) (i : Fin 2) :
      s.holder = some i → s.pc i = SyncPc.fetching →
      LockStep s
        (LockState.mk s.holder (Function.update s.pc i SyncPc.watermark))
  | release (s : LockState) (i : Fin 2) :
      s.holder = some i → s.pc i = SyncPc.watermark →
      LockStep s
        (LockState.mk none (Function.update s.pc i SyncPc.finished))

/-- States reachable from both callers pending. -/
def LockReachable (s : LockState) : Prop :=
  Relation.ReflTransGen LockStep lockInit s

theorem getVal_setVal_self (d : Doc) (f : String) (v : Jv) :
    getVal (setVal d f v) f = some v := by
  induction d with
  | nil => simp [setVal, getVal]
  | cons kv rest ih =>
      obtain ⟨k, w⟩ := kv
      by_cases hk : k = f
      · simp [setVal, getVal, hk]
      · simp [setVal, getVal, hk, ih]

theorem getVal_setVal_ne (d : Doc) (f g : String) (v : Jv) (hfg : g ≠ f) :
    getVal (setVal d f v) g = getVal d g := by
  have hfg' : f ≠ g := Ne.symm hfg
  induction d with
  | nil => simp [setVal, getVal, hfg']
  | cons kv rest ih =>
      obtain ⟨k, w⟩ := kv
      by_cases hk : k = f
      · subst hk
        simp [setVal, getVal, hfg']
      · simp [setVal, getVal, hk, ih]

theorem getVal_cleanOneField_self (d : Doc) (f : String) :
    getVal (cleanOneField d f) f = (getVal d f).map cleanField := by
  cases h : getVal d f with
  | none => simp [cleanOneField, h]
  | some v => simp [cleanOneField, h, getVal_setVal_self]

theorem getVal_cleanOneField_ne (d : Doc) (f g : String) (hfg : g ≠ f) :
    getVal (cleanOneField d f) g = getVal d g := by
  cases h : getVal d f with
  | none => simp [cleanOneField, h]
  | some v => simp [cleanOneField, h, getVal_setVal_ne _ _ _ _ hfg]

/-- C5, counterexample: the claim asserts that `clean` on
`{"published": "not-a-date"}` yields `{"published": None}`.  In the code,
`"not-a-date".split("T")[0]` does not raise — it returns the whole string
unchanged — so the malformed date string is kept, not set to `None`. -/
theorem C5_counterexample :
    clean_cve_data [(("published"), Jv.jstr ("not-a-date"))]
        = [(("published"), Jv.jstr ("not-a-date"))] ∧
      clean_cve_data [(("published"), Jv.jstr ("not-a-date"))]
        ≠ [(("published"), Jv.jnull)] := by decide

/-- C5, amended: `clean_cve_data` maps each present known date field
through `cleanField` and never fails: a string value is truncated at the
first date/time separator `"T"` (a string without `"T"`, such as
`"not-a-date"`, is left unchanged), while a present non-string value —
the only case in which `.split` raises, with the exception caught — is
set to `None`. -/
theorem C5_clean_dates_amended (d : Doc) (f : String) (hf : f ∈ dateFields) :
    getVal (clean_cve_data d) f = (getVal d f).map cleanField ∧
    (∀ s, getVal d f = some (Jv.jstr s) →
      getVal (clean_cve_data d) f = some (Jv.jstr (pySplitHeadT s))) ∧
    (∀ v, getVal d f = some v → (∀ s, v ≠ Jv.jstr s) →
      getVal (clean_cve_data d) f = some Jv.jnull) := by
  have key : getVal (clean_cve_data d) f = (getVal d f).map cleanField := by
    simp only [dateFields, List.mem_cons, List.not_mem_nil, or_false] at hf
    rcases hf with hf | hf
    · subst hf
      show getVal (cleanOneField (cleanOneField d ("published")) ("lastModified"))
          ("published") = _
      rw [getVal_cleanOneField_ne _ _ _ (by decide), getVal_cleanOneField_self]
    · subst hf
      show getVal (cleanOneField (cleanOneField d ("published")) ("lastModified"))
          ("lastModified") = _
      rw [getVal_cleanOneField_self, getVal_cleanOneField_ne _ _ _ (by decide)]
  refine ⟨key, fun s hs => ?_, fun v hv hns => ?_⟩
  · rw [key, hs]; rfl
  · rw [key, hv]
    cases v with
    | jstr s => exact absurd rfl (hns s)
    | jnull => rfl
    | jbool b => rfl
    | jnum q => rfl
    | jarr xs => rfl
    | jobj kvs => rfl

/-- Witness for C5: the amended theorem applied to the claim's own good
example, `{"published": "2024-01-05T10:00:00Z"}`. -/
theorem C5_clean_dates_amended_witness :
    (("published") ∈ dateFields ∧
      clean_cve_data [(("published"), Jv.jstr ("2024-01-05T10:00:00Z"))]
        = [(("published"), Jv.jstr ("2024-01-05"))]) ∧
    getVal (clean_cve_data [(("published"), Jv.jstr ("2024-01-05T10:00:00Z"))])
        ("published")
      = (getVal [(("published"), Jv.jstr ("2024-01-05T10:00:00Z"))]
          ("published")).map cleanField :=
  ⟨by decide, (C5_clean_dates_amended _ ("published") (by decide)).1⟩

/-- C8, counterexample: the claim quantifies over every `minScore` value,
but `if base_score:` (utils.py:232) is false for the score `0`, so
filtering with `minScore = 0` drops the score clause entirely and returns
records whose scores differ from `0` — not "exactly the records" whose v2
or v3 score equals the requested value. -/
theorem C8_counterexample :
    fetch_filtered_core [scoreDoc ("X") q75] none (some 0) none 0
        = [scoreDoc ("X") q75] ∧
      scoreMatchV2 (scoreDoc ("X") q75) 0 = false ∧
      scoreMatchV3 (scoreDoc ("X") q75) 0 = false := by decide

/-- C8, amended: for every nonzero (truthy) `minScore`, a record is
returned exactly when it is stored, its v2 or v3 severity score structure
equals that value exactly, and every other supplied (truthy) filter also
matches — the AND of the applied filters.  A `minScore` of `0` disables
the score clause instead of filtering. -/
theorem C8_filter_conjunction_amended (store : List Doc)
    (cveId : Option String) (b : ℚ) (days : Option Int) (nowUs : Int)
    (r : Doc) (hb : b ≠ 0) :
    r ∈ fetch_filtered_core store cveId (some b) days nowUs ↔
      r ∈ store ∧
      (∀ c, cveId = some c → c.data.isEmpty = false →
        jvPathMatch (Jv.jobj r) [("id")] (Jv.jstr c) = true) ∧
      (scoreMatchV2 r b = true ∨ scoreMatchV3 r b = true) ∧
      (∀ n, days = some n →
        lastModRangeMatch r (isoOfUs (nowUs - n * usPerDay)) (isoOfUs nowUs)
          = true) := by
  have hb2 : (decide (b ≠ 0)) = true := by simp [hb]
  rw [fetch_filtered_core, List.mem_filter, matchesQuery]
  simp only [buildFilterQuery, hb2, if_true]
  cases cveId with
  | none =>
      cases days with
      | none => simp [Bool.and_eq_true, Bool.or_eq_true]
      | some n => simp [Bool.and_eq_true, Bool.or_eq_true, and_assoc]
  | some c =>
      cases hce : c.data.isEmpty with
      | true =>
          have hc0 : c.data = [] := by simpa using hce
          cases days with
          | none => simp [hce, hc0, Bool.and_eq_true, Bool.or_eq_true]
          | some n =>
              simp [hce, hc0, Bool.and_eq_true, Bool.or_eq_true, and_assoc]
      | false =>
          have hc0 : ¬c.data = [] := by simpa using hce
          cases days with
          | none => simp [hce, hc0, Bool.and_eq_true, Bool.or_eq_true, and_assoc]
          | some n =>
              simp [hce, hc0, Bool.and_eq_true, Bool.or_eq_true, and_assoc]

/-- Witness for C8: with scores 7.4, 7.5, 7.6 stored, filtering for
exactly 7.5 returns only the 7.5 record; the amended characterization is
applied to that record. -/
theorem C8_filter_conjunction_amended_witness :
    (q75 ≠ 0 ∧
      fetch_filtered_core
          [scoreDoc ("A") q74, scoreDoc ("B") q75, scoreDoc ("C") q76]
          none (some q75) none 0
        = [scoreDoc ("B") q75]) ∧
    scoreDoc ("B") q75 ∈
      fetch_filtered_core
        [scoreDoc ("A") q74, scoreDoc ("B") q75, scoreDoc ("C") q76]
        none (some q75) none 0 :=
  ⟨⟨by decide, by decide⟩,
    (C8_filter_conjunction_amended _ none q75 none 0 _ (by decide)).mpr
      ⟨by decide, fun c hc => Option.noConfusion hc,
        Or.inr (by decide), fun n hn => Option.noConfusion hn⟩⟩

/-- C9: a store-level failure while filtering is swallowed — the filter
operation returns the empty list instead of propagating the error — and
an empty result (not an error) is returned when no stored record matches
the built query. -/
theorem C9_query_failure_empty :
    (∀ (msg : String) (cveId : Option String) (b : Option ℚ)
        (days : Option Int) (nowUs : Int),
      fetch_filtered_cve_data (Except.error msg) cveId b days nowUs = []) ∧
    (∀ (store : List Doc) (cveId : Option String) (b : Option ℚ)
        (days : Option Int) (nowUs : Int),
      (∀ r ∈ store,
        matchesQuery (buildFilterQuery cveId b days nowUs) r = false) →
      fetch_filtered_cve_data (Except.ok store) cveId b days nowUs = []) := by
  constructor
  · intro msg cveId b days nowUs
    rfl
  · intro store cveId b days nowUs h
    show fetch_filtered_core store cveId b days nowUs = []
    rw [fetch_filtered_core, List.filter_eq_nil_iff]
    intro r hr
    simp [h r hr]

/-- Witness for C9: a failing read yields `[]`, and a query matching no
stored record yields `[]`. -/
theorem C9_query_failure_empty_witness :
    fetch_filtered_cve_data (Except.error ("boom")) none none none 0 = [] ∧
    fetch_filtered_cve_data (Except.ok [scoreDoc ("A") q74]) (some ("Z"))
        none none 0
      = [] :=
  ⟨C9_query_failure_empty.1 ("boom") none none none 0,
    C9_query_failure_empty.2 _ _ _ _ _ (by decide)⟩

theorem storeExtends_refl (l : List Doc) : storeExtends l l :=
  ⟨[], (List.append_nil l).symm⟩

theorem storeExtends_trans {a b c : List Doc}
    (h1 : storeExtends a b) (h2 : storeExtends b c) : storeExtends a c := by
  obtain ⟨t1, rfl⟩ := h1
  obtain ⟨t2, rfl⟩ := h2
  exact ⟨t1 ++ t2, by rw [List.append_assoc]⟩

theorem storeIds_append (l1 l2 : List Doc) :
    storeIds (l1 ++ l2) = storeIds l1 ++ storeIds l2 :=
  List.map_append _ _ _

theorem bulkWriteOrdered_extends (ops : List Doc) :
    ∀ store, storeExtends store (bulkWriteOrdered store ops) := by
  induction ops with
  | nil => intro store; exact storeExtends_refl store
  | cons d rest ih =>
      intro store
      rw [bulkWriteOrdered]
      by_cases h : insertConflicts store d = true
      · rw [if_pos h]; exact storeExtends_refl store
      · rw [if_neg h]
        exact storeExtends_trans ⟨[d], rfl⟩ (ih (store ++ [d]))

theorem bulkWriteOrdered_nodup (ops : List Doc) :
    ∀ store, (storeIds store).Nodup →
      (storeIds (bulkWriteOrdered store ops)).Nodup := by
  induction ops with
  | nil => intro store h; exact h
  | cons d rest ih =>
      intro store h
      rw [bulkWriteOrdered]
      by_cases hc : insertConflicts store d = true
      · rw [if_pos hc]; exact h
      · rw [if_neg hc]
        refine ih (store ++ [d]) ?_
        rw [storeIds_append]
        refine List.Nodup.append h (by simp [storeIds]) ?_
        intro x hx hx2
        rw [storeIds, List.mem_map] at hx
        obtain ⟨d2, hd2, hkey⟩ := hx
        have hx2' : x = docIdKey d := by simpa [storeIds] using hx2
        refine hc ?_
        rw [insertConflicts, List.any_eq_true]
        refine ⟨d2, hd2, ?_⟩
        rw [hkey, hx2']
        simp

theorem execute_bulk_operations_extends (store ops : List Doc) :
    storeExtends store (execute_bulk_operations store ops) := by
  rw [execute_bulk_operations]
  by_cases h : ops.isEmpty = true
  · rw [if_pos h]; exact storeExtends_refl store
  · rw [if_neg h]; exact bulkWriteOrdered_extends ops store

theorem execute_bulk_operations_nodup (store ops : List Doc)
    (h : (storeIds store).Nodup) :
    (storeIds (execute_bulk_operations store ops)).Nodup := by
  rw [execute_bulk_operations]
  by_cases he : ops.isEmpty = true
  · rw [if_pos he]; exact h
  · rw [if_neg he]; exact bulkWriteOrdered_nodup ops store h

theorem pageStore_extends (store : List Doc) (page : Page) :
    storeExtends store (pageStore store page) := by
  rw [pageStore]
  by_cases h : (prepare_bulk_operations store page.vulnerabilities).isEmpty = true
  · rw [if_pos h]; exact storeExtends_refl store
  · rw [if_neg h]; exact execute_bulk_operations_extends _ _

theorem pageStore_nodup (store : List Doc) (page : Page)
    (h : (storeIds store).Nodup) : (storeIds (pageStore store page)).Nodup := by
  rw [pageStore]
  by_cases hp : (prepare_bulk_operations store page.vulnerabilities).isEmpty = true
  · rw [if_pos hp]; exact h
  · rw [if_neg hp]; exact execute_bulk_operations_nodup _ _ h

theorem fetchLoopAux_extends (up : Req → Option Page) (rpp : Nat)
    (win : Option (String × String)) :
    ∀ (fuel startIndex : Nat) (total : Option Nat) (store : List Doc),
      storeExtends store (fetchLoopAux up rpp win fuel startIndex total store).1 := by
  intro fuel
  induction fuel with
  | zero => intro si t store; exact storeExtends_refl store
  | succ fuel ih =>
      intro si t store
      rw [fetchLoopAux]
      by_cases hlt : ltTotal si t = true
      · rw [if_pos hlt]
        cases hup : up (Req.page si rpp win) with
        | none => exact storeExtends_refl store
        | some page =>
            dsimp only
            by_cases hv : page.vulnerabilities.isEmpty = true
            · rw [if_pos hv]; exact storeExtends_refl store
            · rw [if_neg hv]
              exact storeExtends_trans (pageStore_extends store page) (ih _ _ _)
      · rw [if_neg hlt]; exact storeExtends_refl store

theorem fetchLoopAux_nodup (up : Req → Option Page) (rpp : Nat)
    (win : Option (String × String)) :
    ∀ (fuel startIndex : Nat) (total : Option Nat) (store : List Doc),
      (storeIds store).Nodup →
      (storeIds (fetchLoopAux up rpp win fuel startIndex total store).1).Nodup := by
  intro fuel
  induction fuel with
  | zero => intro si t store h; exact h
  | succ fuel ih =>
      intro si t store h
      rw [fetchLoopAux]
      by_cases hlt : ltTotal si t = true
      · rw [if_pos hlt]
        cases hup : up (Req.page si rpp win) with
        | none => exact h
        | some page =>
            dsimp only
            by_cases hv : page.vulnerabilities.isEmpty = true
            · rw [if_pos hv]; exact h
            · rw [if_neg hv]
              exact ih _ _ _ (pageStore_nodup store page h)
      · rw [if_neg hlt]; exact h

theorem fetchLoopAux_reqs_pages (up : Req → Option Page) (rpp : Nat)
    (win : Option (String × String)) :
    ∀ (fuel startIndex : Nat) (total : Option Nat) (store : List Doc),
      ∀ r ∈ (fetchLoopAux up rpp win fuel startIndex total store).2,
        ∃ i, r = Req.page i rpp win := by
  intro fuel
  induction fuel with
  | zero => intro si t store r hr; simp [fetchLoopAux] at hr
  | succ fuel ih =>
      intro si t store r hr
      rw [fetchLoopAux] at hr
      by_cases hlt : ltTotal si t = true
      · rw [if_pos hlt] at hr
        cases hup : up (Req.page si rpp win) with
        | none =>
            rw [hup] at hr
            have : r = Req.page si rpp win := by simpa using hr
            exact ⟨si, this⟩
        | some page =>
            rw [hup] at hr
            dsimp only at hr
            by_cases hv : page.vulnerabilities.isEmpty = true
            · rw [if_pos hv] at hr
              have : r = Req.page si rpp win := by simpa using hr
              exact ⟨si, this⟩
            · rw [if_neg hv] at hr
              rcases List.mem_cons.mp hr with h | h
              · exact ⟨si, h⟩
              · exact ih _ _ _ r h
      · rw [if_neg hlt] at hr
        simp at hr

theorem fetch_and_store_extends (up : Req → Option Page)
    (si rpp : Nat) (s e : Option String) (fuel : Nat) (store : List Doc) :
    storeExtends store (fetch_and_store_cve_data up si rpp s e fuel store).1 :=
  fetchLoopAux_extends up rpp _ fuel si none store

theorem fetch_and_store_nodup (up : Req → Option Page)
    (si rpp : Nat) (s e : Option String) (fuel : Nat) (store : List Doc)
    (h : (storeIds store).Nodup) :
    (storeIds (fetch_and_store_cve_data up si rpp s e fuel store).1).Nodup :=
  fetchLoopAux_nodup up rpp _ fuel si none store h

theorem syncBody_parts (up : Req → Option Page) (fuel : Nat)
    (w1 w2 : Option String) (st : SyncState) :
    (syncBody up fuel w1 w2 st).outcome = SyncOutcome.completed ∧
    (syncBody up fuel w1 w2 st).effWindow = some (w1, w2) ∧
    (syncBody up fuel w1 w2 st).reqs
      = (fetch_and_store_cve_data up 0 2000 w1 w2 fuel st.store).2 ++ [Req.meta] ∧
    (syncBody up fuel w1 w2 st).state.store
      = (fetch_and_store_cve_data up 0 2000 w1 w2 fuel st.store).1 := by
  cases h : up Req.meta with
  | none => simp [syncBody, h]
  | some page => simp [syncBody, h]

theorem syncFetchPhase_state_store (up : Req → Option Page) (fuel : Nat)
    (s e : Option String) (now : String) (st : SyncState) :
    ∃ w1 w2, (syncFetchPhase up fuel s e now st).state.store
      = (fetch_and_store_cve_data up 0 2000 w1 w2 fuel st.store).1 := by
  rw [syncFetchPhase]
  by_cases h : (optTruthy st.wm && !(optTruthy s && optTruthy e)) = true
  · rw [if_pos h]
    exact ⟨st.wm, some now, (syncBody_parts up fuel st.wm (some now) st).2.2.2⟩
  · rw [if_neg h]
    exact ⟨s, e, (syncBody_parts up fuel s e st).2.2.2⟩

theorem synchronize_state_cases (up : Req → Option Page) (fuel : Nat)
    (s e : Option String) (now : String) (st : SyncState) :
    (synchronize_cve_data up fuel s e now st).state = st ∨
    ∃ w1 w2, (synchronize_cve_data up fuel s e now st).state.store
      = (fetch_and_store_cve_data up 0 2000 w1 w2 fuel st.store).1 := by
  rw [synchronize_cve_data]
  by_cases h : (optTruthy s && optTruthy e) = true
  · rw [if_pos h]
    cases hp1 : parseWindowDate (s.getD ("")) with
    | none => exact Or.inl rfl
    | some a =>
        cases hp2 : parseWindowDate (e.getD ("")) with
        | none => exact Or.inl rfl
        | some b =>
            dsimp only
            cases hd : dtSub b a with
            | none => exact Or.inl rfl
            | some diff =>
                dsimp only
                by_cases hgt : diff > days120us
                · rw [if_pos hgt]; exact Or.inl rfl
                · rw [if_neg hgt]
                  exact Or.inr (syncFetchPhase_state_store up fuel s e now st)
  · rw [if_neg h]
    exact Or.inr (syncFetchPhase_state_store up fuel s e now st)

theorem runSync_preserves (r : RunSpec) (st : SyncState) :
    storeExtends st.store (runSync st r).store ∧
    ((storeIds st.store).Nodup → (storeIds (runSync st r).store).Nodup) := by
  rw [runSync]
  rcases synchronize_state_cases r.up r.fuel r.startDate r.endDate r.nowIso st with
    h | ⟨w1, w2, h⟩
  · rw [h]; exact ⟨storeExtends_refl _, id⟩
  · rw [h]
    exact ⟨fetch_and_store_extends _ _ _ _ _ _ _,
      fun hn => fetch_and_store_nodup _ _ _ _ _ _ _ hn⟩

/-- C1: across any sequence of synchronize runs over arbitrary upstream
record sequences — duplicate ids within one page, across pages or across
runs included — the store keeps at most one record per id (the stored id
values stay pairwise distinct), and the prior store contents are only
ever appended to: no stored record is updated or deleted. -/
theorem C1_store_at_most_one_per_id (runs : List RunSpec) (st0 : SyncState)
    (h : (storeIds st0.store).Nodup) :
    (storeIds (runs.foldl runSync st0).store).Nodup ∧
    storeExtends st0.store (runs.foldl runSync st0).store := by
  induction runs generalizing st0 with
  | nil => exact ⟨h, storeExtends_refl _⟩
  | cons r rest ih =>
      rw [List.foldl_cons]
      have hp := runSync_preserves r st0
      obtain ⟨hn, he⟩ := ih (runSync st0 r) (hp.2 h)
      exact ⟨hn, storeExtends_trans hp.1 he⟩

/-- Witness for C1: two windowless runs whose upstream repeats `CVE-A`
inside one page, across pages and across runs; the final store holds
exactly one record per id. -/
theorem C1_store_at_most_one_per_id_witness :
    ((storeIds (SyncState.mk [] none).store).Nodup ∧
      (c1Runs.foldl runSync (SyncState.mk [] none)).store
        = [[(("id"), Jv.jstr ("CVE-A"))], [(("id"), Jv.jstr ("CVE-B"))]]) ∧
    (storeIds (c1Runs.foldl runSync (SyncState.mk [] none)).store).Nodup :=
  ⟨⟨List.nodup_nil, by decide⟩,
    (C1_store_at_most_one_per_id c1Runs (SyncState.mk [] none) List.nodup_nil).1⟩

/-- C4, counterexample: the claim says every non-conflicting record of a
partially failing batch is committed.  `bulk_write` is called with
pymongo's default `ordered=True`, so the batch `[duplicate-of-A, B]`
against a store already holding `A` stops at the first conflict: the
non-conflicting `B` is never inserted. -/
theorem C4_counterexample :
    insertConflicts [docA] docB = false ∧
    execute_bulk_operations [docA] [docA2, docB] = [docA] ∧
    docB ∉ execute_bulk_operations [docA] [docA2, docB] := by decide

/-- C4, amended: an empty batch is a no-op, not an error, and the batch
is not retried; but the batch-write is ordered, so a conflicting insert
commits nothing further — the records before the first conflict are
committed, the conflicting record and every record after it (also
non-conflicting ones) are skipped. -/
theorem C4_ordered_bulk_write_amended (store : List Doc) (d : Doc)
    (ops : List Doc) :
    execute_bulk_operations store [] = store ∧
    (insertConflicts store d = true →
      execute_bulk_operations store (d :: ops) = store) ∧
    (insertConflicts store d = false →
      execute_bulk_operations store (d :: ops)
        = bulkWriteOrdered (store ++ [d]) ops) := by
  refine ⟨rfl, fun h => ?_, fun h => ?_⟩
  · show bulkWriteOrdered store (d :: ops) = store
    rw [bulkWriteOrdered, if_pos h]
  · show bulkWriteOrdered store (d :: ops) = bulkWriteOrdered (store ++ [d]) ops
    rw [bulkWriteOrdered, if_neg (by simp [h])]

/-- Witness for C4: the amended theorem applied to the stop-at-conflict
batch of the counterexample. -/
theorem C4_ordered_bulk_write_amended_witness :
    insertConflicts [docA] docA2 = true ∧
    execute_bulk_operations [docA] [docA2, docB] = [docA] :=
  ⟨by decide, (C4_ordered_bulk_write_amended [docA] docA2 [docB]).2.1 (by decide)⟩

/-- C6, counterexample: the update endpoint does not trigger
`synchronize()`: `UpdateCveDataView.get` awaits
`fetch_and_store_cve_data()` directly (views.py:26).  On the same
upstream and state, `synchronize` advances the watermark via the
metadata request while the endpoint leaves it untouched and issues no
metadata request at all. -/
theorem C6_counterexample :
    (updateCveDataGet upC6 1 (SyncState.mk [] none)).1.wm = none ∧
    (synchronize_cve_data upC6 1 none none ("2024-02-01T00:00:00+00:00")
        (SyncState.mk [] none)).state.wm
      = some ("2024-01-01T00:00:00+00:00") ∧
    (updateCveDataGet upC6 1 (SyncState.mk [] none)).1
      ≠ (synchronize_cve_data upC6 1 none none ("2024-02-01T00:00:00+00:00")
          (SyncState.mk [] none)).state ∧
    Req.meta ∉ (updateCveDataGet upC6 1 (SyncState.mk [] none)).2 ∧
    Req.meta ∈ (synchronize_cve_data upC6 1 none none
        ("2024-02-01T00:00:00+00:00") (SyncState.mk [] none)).reqs := by decide

/-- C6, amended: on every request the update endpoint invokes
`fetch_and_store_cve_data` directly with no window and the default page
size, bypassing `synchronize`: the watermark is never updated, and every
request it issues is a windowless page request — never the metadata
request `synchronize` ends with. -/
theorem C6_update_view_amended (up : Req → Option Page) (fuel : Nat)
    (st : SyncState) :
    (updateCveDataGet up fuel st).1.wm = st.wm ∧
    (updateCveDataGet up fuel st).1.store
      = (fetch_and_store_cve_data up 0 2000 none none fuel st.store).1 ∧
    (∀ r ∈ (updateCveDataGet up fuel st).2, ∃ i, r = Req.page i 2000 none) := by
  refine ⟨rfl, rfl, fun r hr => ?_⟩
  exact fetchLoopAux_reqs_pages up 2000 none fuel 0 none st.store r hr

/-- Witness for C6: the amended theorem applied to a concrete upstream;
the endpoint's one request is a windowless page request and the
watermark stays `none`. -/
theorem C6_update_view_amended_witness :
    (updateCveDataGet upC6 1 (SyncState.mk [] none)).1.wm = none ∧
    Req.page 0 2000 none ∈ (updateCveDataGet upC6 1 (SyncState.mk [] none)).2 ∧
    (∃ i, Req.page 0 2000 none = Req.page i 2000 none) :=
  ⟨(C6_update_view_amended upC6 1 (SyncState.mk [] none)).1, by decide,
    (C6_update_view_amended upC6 1 (SyncState.mk [] none)).2.2 _ (by decide)⟩

theorem windowParams_none (s e : Option String)
    (h : (optTruthy s && optTruthy e) = false) : windowParams s e = none := by
  cases s with
  | none => rfl
  | some a =>
      cases e with
      | none => rfl
      | some b =>
          have h2 : (!a.data.isEmpty && !b.data.isEmpty) = false := h
          simp [windowParams, h2]

theorem windowParams_some (a b : String)
    (ha : a.data.isEmpty = false) (hb : b.data.isEmpty = false) :
    windowParams (some a) (some b) = some (a, b) := by
  simp [windowParams, ha, hb]

theorem synchronize_no_window (up : Req → Option Page) (fuel : Nat)
    (s e : Option String) (now : String) (st : SyncState)
    (h : (optTruthy s && optTruthy e) = false) :
    synchronize_cve_data up fuel s e now st
      = syncFetchPhase up fuel s e now st := by
  rw [synchronize_cve_data, if_neg (by simp [h])]

/-- C3, counterexample: a 152-day window whose start date is naive
("2024-01-01") while its end date carries a UTC offset
("2024-06-01T00:00:00Z" after the `"Z"` replacement): both dates parse,
the window far exceeds 120 days, but `end_date - start_date` raises
`TypeError` (naive minus aware), which `except ValueError` does not
catch — the run aborts with zero fetches and an uncaught exception, not
with the window-too-large report the claim promises for every
over-large window. -/
theorem C3_counterexample :
    parseWindowDate ("2024-01-01") = some (1704067200000000, none) ∧
    parseWindowDate ("2024-06-01T00:00:00Z")
      = some (1717200000000000, some 0) ∧
    (1717200000000000 - 1704067200000000 : Int) > days120us ∧
    dtSub (1717200000000000, some 0) (1704067200000000, none) = none ∧
    synchronize_cve_data upC6 1 (some ("2024-01-01"))
        (some ("2024-06-01T00:00:00Z")) ("2024-06-02T00:00:00+00:00")
        (SyncState.mk [] none)
      = RunResult.mk (SyncState.mk [] none) SyncOutcome.typeError [] none ∧
    SyncOutcome.typeError ≠ SyncOutcome.windowTooLarge := by decide

/-- C3, amended: for an explicit window (both dates truthy and
parseable) whose parsed datetimes admit subtraction (both naive or both
aware): if `end - start` exceeds 120 days the run aborts before any
upstream request with the window-too-large report and unchanged state —
the window is not clamped; if `end - start` is at most 120 days
(including exactly 120) the run proceeds and passes exactly the
supplied window through.  A mixed naive/aware pair instead aborts with
an uncaught `TypeError`, still before any upstream request. -/
theorem C3_window_validation_amended (up : Req → Option Page) (fuel : Nat)
    (s e : Option String) (nowIso : String) (st : SyncState)
    (a b : Int × Option Int)
    (hs : optTruthy s = true) (he : optTruthy e = true)
    (hps : parseWindowDate (s.getD ("")) = some a)
    (hpe : parseWindowDate (e.getD ("")) = some b) :
    (∀ diff, dtSub b a = some diff → diff > days120us →
      synchronize_cve_data up fuel s e nowIso st
        = RunResult.mk st SyncOutcome.windowTooLarge [] none) ∧
    (∀ diff, dtSub b a = some diff → diff ≤ days120us →
      (synchronize_cve_data up fuel s e nowIso st).outcome
          = SyncOutcome.completed ∧
      (synchronize_cve_data up fuel s e nowIso st).effWindow
          = some (s, e)) ∧
    (dtSub b a = none →
      synchronize_cve_data up fuel s e nowIso st
        = RunResult.mk st SyncOutcome.typeError [] none) := by
  have hcond : (optTruthy s && optTruthy e) = true := by rw [hs, he]; rfl
  have hkey : synchronize_cve_data up fuel s e nowIso st
      = match dtSub b a with
        | some diff =>
            if diff > days120us then
              RunResult.mk st SyncOutcome.windowTooLarge [] none
            else syncFetchPhase up fuel s e nowIso st
        | none => RunResult.mk st SyncOutcome.typeError [] none := by
    rw [synchronize_cve_data, if_pos hcond, hps, hpe]
  refine ⟨?_, ?_, ?_⟩
  · intro diff hd hgt
    rw [hkey, hd]
    dsimp only
    rw [if_pos hgt]
  · intro diff hd hle
    have hn : ¬ diff > days120us := not_lt.mpr hle
    have h2 : synchronize_cve_data up fuel s e nowIso st
        = syncFetchPhase up fuel s e nowIso st := by
      rw [hkey, hd]
      dsimp only
      rw [if_neg hn]
    have hcond2 : (optTruthy st.wm && !(optTruthy s && optTruthy e)) = false := by
      rw [hcond]; simp
    rw [h2, syncFetchPhase,
      if_neg (fun hcc => by rw [hcond2] at hcc; exact Bool.noConfusion hcc)]
    exact ⟨(syncBody_parts up fuel s e st).1, (syncBody_parts up fuel s e st).2.1⟩
  · intro hd
    rw [hkey, hd]

/-- Witness for C3: the amended theorem applied to the 152-day window
`["2024-01-01", "2024-06-01"]` (rejected with zero requests) and to the
exactly-120-day window `["2024-01-01", "2024-04-30"]` (accepted,
window passed through unclamped). -/
theorem C3_window_validation_amended_witness :
    (dtSub (1714435200000000, none) (1704067200000000, none)
        = some 10368000000000 ∧
      (10368000000000 : Int) ≤ days120us) ∧
    synchronize_cve_data upC6 1 (some ("2024-01-01")) (some ("2024-06-01"))
        ("2024-06-02T00:00:00+00:00") (SyncState.mk [] none)
      = RunResult.mk (SyncState.mk [] none) SyncOutcome.windowTooLarge [] none ∧
    ((synchronize_cve_data upC6 1 (some ("2024-01-01"))
        (some ("2024-04-30")) ("2024-06-02T00:00:00+00:00")
        (SyncState.mk [] none)).outcome = SyncOutcome.completed ∧
      (synchronize_cve_data upC6 1 (some ("2024-01-01"))
        (some ("2024-04-30")) ("2024-06-02T00:00:00+00:00")
        (SyncState.mk [] none)).effWindow
        = some (some ("2024-01-01"), some ("2024-04-30"))) :=
  ⟨by decide,
    (C3_window_validation_amended upC6 1 (some ("2024-01-01"))
        (some ("2024-06-01")) ("2024-06-02T00:00:00+00:00")
        (SyncState.mk [] none) (1704067200000000, none)
        (1717200000000000, none) (by decide) (by decide) (by decide)
        (by decide)).1 13132800000000 (by decide) (by decide),
    (C3_window_validation_amended upC6 1 (some ("2024-01-01"))
        (some ("2024-04-30")) ("2024-06-02T00:00:00+00:00")
        (SyncState.mk [] none) (1704067200000000, none)
        (1714435200000000, none) (by decide) (by decide) (by decide)
        (by decide)).2.1 10368000000000 (by decide) (by decide)⟩

/-- C7: with no explicit window, a truthy watermark makes the run
incremental — the effective window is `[watermark, now]` and every page
request carries exactly those window parameters — while an absent
watermark makes it a full unbounded resync: every page request is
windowless.  The watermark exists only as the in-memory module state
(`SyncState.wm`), so a process restart resets it to `none` and the
first windowless run after a restart is the full resync of the second
part. -/
theorem C7_incremental_or_full (up : Req → Option Page) (fuel : Nat)
    (store0 : List Doc) (nowIso : String)
    (hnow : nowIso.data.isEmpty = false) :
    (∀ w : String, w.data.isEmpty = false →
      (synchronize_cve_data up fuel none none nowIso
          (SyncState.mk store0 (some w))).effWindow
        = some (some w, some nowIso) ∧
      (∀ r ∈ (synchronize_cve_data up fuel none none nowIso
          (SyncState.mk store0 (some w))).reqs,
        r = Req.meta ∨ ∃ i, r = Req.page i 2000 (some (w, nowIso)))) ∧
    ((synchronize_cve_data up fuel none none nowIso
          (SyncState.mk store0 none)).effWindow = some (none, none) ∧
      (∀ r ∈ (synchronize_cve_data up fuel none none nowIso
          (SyncState.mk store0 none)).reqs,
        r = Req.meta ∨ ∃ i, r = Req.page i 2000 none)) := by
  constructor
  · intro w hw
    have h0 : synchronize_cve_data up fuel none none nowIso
        (SyncState.mk store0 (some w))
        = syncBody up fuel (some w) (some nowIso) (SyncState.mk store0 (some w)) := by
      rw [synchronize_no_window up fuel none none nowIso _ rfl,
        syncFetchPhase, if_pos]
      show (optTruthy (some w) && !(optTruthy none && optTruthy none)) = true
      show (!w.data.isEmpty && !(false && false)) = true
      rw [hw]; rfl
    rw [h0]
    refine ⟨(syncBody_parts up fuel (some w) (some nowIso) _).2.1, fun r hr => ?_⟩
    rw [(syncBody_parts up fuel (some w) (some nowIso) _).2.2.1,
      fetch_and_store_cve_data, windowParams_some w nowIso hw hnow] at hr
    rcases List.mem_append.mp hr with h2 | h2
    · obtain ⟨i, hi⟩ := fetchLoopAux_reqs_pages up 2000 _ fuel 0 none store0 r h2
      exact Or.inr ⟨i, hi⟩
    · exact Or.inl (by simpa using h2)
  · have h0 : synchronize_cve_data up fuel none none nowIso
        (SyncState.mk store0 none)
        = syncBody up fuel none none (SyncState.mk store0 none) := by
      rw [synchronize_no_window up fuel none none nowIso _ rfl,
        syncFetchPhase, if_neg]
      intro hc
      simp [optTruthy] at hc
    rw [h0]
    refine ⟨(syncBody_parts up fuel none none _).2.1, fun r hr => ?_⟩
    rw [(syncBody_parts up fuel none none _).2.2.1,
      fetch_and_store_cve_data] at hr
    rcases List.mem_append.mp hr with h2 | h2
    · obtain ⟨i, hi⟩ := fetchLoopAux_reqs_pages up 2000 _ fuel 0 none store0 r h2
      exact Or.inr ⟨i, hi⟩
    · exact Or.inl (by simpa using h2)

/-- Witness for C7: one upstream, a truthy watermark on one side and an
absent one on the other. -/
theorem C7_incremental_or_full_witness :
    (("2024-02-02T00:00:00+00:00" : String).data.isEmpty = false ∧
      ("2024-01-01T00:00:00+00:00" : String).data.isEmpty = false) ∧
    (synchronize_cve_data upC6 1 none none ("2024-02-02T00:00:00+00:00")
        (SyncState.mk [] (some ("2024-01-01T00:00:00+00:00")))).effWindow
      = some (some ("2024-01-01T00:00:00+00:00"),
          some ("2024-02-02T00:00:00+00:00")) ∧
    (synchronize_cve_data upC6 1 none none ("2024-02-02T00:00:00+00:00")
        (SyncState.mk [] none)).effWindow = some (none, none) :=
  ⟨⟨by decide, by decide⟩,
    ((C7_incremental_or_full upC6 1 [] ("2024-02-02T00:00:00+00:00")
        (by decide)).1 ("2024-01-01T00:00:00+00:00") (by decide)).1,
    (C7_incremental_or_full upC6 1 [] ("2024-02-02T00:00:00+00:00")
        (by decide)).2.1⟩

/-- C10: when exactly one window date is truthy, the 120-day and
date-format validations are skipped entirely — the run always completes,
whatever either string contains; with a truthy watermark the lone date
is silently overwritten by the synthesized `[watermark, now]` window;
and with no truthy watermark the lone date survives in the effective
window but is never attached to any page request, since window query
parameters require both dates. -/
theorem C10_lone_date_skips_validation (up : Req → Option Page)
    (fuel : Nat) (s e : Option String) (nowIso : String) (st : SyncState)
    (h : (optTruthy s = true ∧ optTruthy e = false) ∨
         (optTruthy s = false ∧ optTruthy e = true)) :
    (synchronize_cve_data up fuel s e nowIso st).outcome
        = SyncOutcome.completed ∧
    (optTruthy st.wm = true →
      (synchronize_cve_data up fuel s e nowIso st).effWindow
        = some (st.wm, some nowIso)) ∧
    (optTruthy st.wm = false →
      (synchronize_cve_data up fuel s e nowIso st).effWindow = some (s, e) ∧
      (∀ r ∈ (synchronize_cve_data up fuel s e nowIso st).reqs,
        r = Req.meta ∨ ∃ i, r = Req.page i 2000 none)) := by
  have hse : (optTruthy s && optTruthy e) = false := by
    rcases h with ⟨h1, h2⟩ | ⟨h1, h2⟩ <;> rw [h1, h2] <;> rfl
  have hc : (optTruthy st.wm && !(optTruthy s && optTruthy e))
      = optTruthy st.wm := by
    rw [hse]; simp
  rw [synchronize_no_window up fuel s e nowIso st hse, syncFetchPhase]
  refine ⟨?_, ?_, ?_⟩
  · by_cases hwm : optTruthy st.wm = true
    · rw [if_pos (by rw [hc]; exact hwm)]
      exact (syncBody_parts up fuel st.wm (some nowIso) st).1
    · rw [if_neg (by rw [hc]; exact hwm)]
      exact (syncBody_parts up fuel s e st).1
  · intro hwm
    rw [if_pos (by rw [hc]; exact hwm)]
    exact (syncBody_parts up fuel st.wm (some nowIso) st).2.1
  · intro hwm
    rw [if_neg (by rw [hc]; simp [hwm])]
    refine ⟨(syncBody_parts up fuel s e st).2.1, fun r hr => ?_⟩
    rw [(syncBody_parts up fuel s e st).2.2.1, fetch_and_store_cve_data,
      windowParams_none s e hse] at hr
    rcases List.mem_append.mp hr with h2 | h2
    · obtain ⟨i, hi⟩ := fetchLoopAux_reqs_pages up 2000 none fuel 0 none st.store r h2
      exact Or.inr ⟨i, hi⟩
    · exact Or.inl (by simpa using h2)

/-- Witness for C10: a lone, malformed start date.  With a watermark the
run is incremental — the lone date vanishes; without one the run
completes with windowless page requests despite the garbage date. -/
theorem C10_lone_date_skips_validation_witness :
    ((optTruthy (some ("not-a-date")) = true ∧ optTruthy none = false) ∨
      (optTruthy (some ("not-a-date")) = false ∧ optTruthy none = true)) ∧
    (synchronize_cve_data upC6 1 (some ("not-a-date")) none
        ("2024-02-02T00:00:00+00:00") (SyncState.mk [] none)).outcome
      = SyncOutcome.completed ∧
    (synchronize_cve_data upC6 1 (some ("not-a-date")) none
        ("2024-02-02T00:00:00+00:00")
        (SyncState.mk [] (some ("2024-01-01T00:00:00+00:00")))).effWindow
      = some (some ("2024-01-01T00:00:00+00:00"),
          some ("2024-02-02T00:00:00+00:00")) :=
  ⟨Or.inl ⟨by decide, by decide⟩,
    (C10_lone_date_skips_validation upC6 1 (some ("not-a-date")) none
        ("2024-02-02T00:00:00+00:00") (SyncState.mk [] none)
        (Or.inl ⟨by decide, by decide⟩)).1,
    (C10_lone_date_skips_validation upC6 1 (some ("not-a-date")) none
        ("2024-02-02T00:00:00+00:00")
        (SyncState.mk [] (some ("2024-01-01T00:00:00+00:00")))
        (Or.inl ⟨by decide, by decide⟩)).2.1 (by decide)⟩

/-- The inductive lock invariant: any caller inside the body holds the
lock. -/
def lockInv (s : LockState) : Prop :=
  ∀ i, inBody (s.pc i) = true → s.holder = some i

theorem lockInv_init : lockInv lockInit := by
  intro i h
  simp [lockInit, inBody] at h

theorem lockInv_step {s s' : LockState} (hs : LockStep s s')
    (h : lockInv s) : lockInv s' := by
  cases hs with
  | acquire i hh hp =>
      intro j hj
      by_cases hij : j = i
      · subst hij; rfl
      · rw [show (LockState.mk (some i) (Function.update s.pc i SyncPc.validate)).pc
              = Function.update s.pc i SyncPc.validate from rfl,
          Function.update_noteq hij] at hj
        have h2 := h j hj
        rw [hh] at h2
        exact Option.noConfusion h2
  | validateOk i hh hp =>
      intro j hj
      by_cases hij : j = i
      · subst hij; exact hh
      · rw [show (LockState.mk s.holder (Function.update s.pc i SyncPc.fetching)).pc
              = Function.update s.pc i SyncPc.fetching from rfl,
          Function.update_noteq hij] at hj
        exact h j hj
  | validateAbort i hh hp =>
      intro j hj
      by_cases hij : j = i
      · subst hij
        rw [show (LockState.mk none (Function.update s.pc j SyncPc.finished)).pc
              = Function.update s.pc j SyncPc.finished from rfl,
          Function.update_same] at hj
        exact Bool.noConfusion hj
      · rw [show (LockState.mk none (Function.update s.pc i SyncPc.finished)).pc
              = Function.update s.pc i SyncPc.finished from rfl,
          Function.update_noteq hij] at hj
        have h2 := h j hj
        rw [hh] at h2
        exact absurd (Option.some.inj h2).symm hij
  | fetchDone i hh hp =>
      intro j hj
      by_cases hij : j = i
      · subst hij; exact hh
      · rw [show (LockState.mk s.holder (Function.update s.pc i SyncPc.watermark)).pc
              = Function.update s.pc i SyncPc.watermark from rfl,
          Function.update_noteq hij] at hj
        exact h j hj
  | release i hh hp =>
      intro j hj
      by_cases hij : j = i
      · subst hij
        rw [show (LockState.mk none (Function.update s.pc j SyncPc.finished)).pc
              = Function.update s.pc j SyncPc.finished from rfl,
          Function.update_same] at hj
        exact Bool.noConfusion hj
      · rw [show (LockState.mk none (Function.update s.pc i SyncPc.finished)).pc
              = Function.update s.pc i SyncPc.finished from rfl,
          Function.update_noteq hij] at hj
        have h2 := h j hj
        rw [hh] at h2
        exact absurd (Option.some.inj h2).symm hij

theorem lockInv_reachable {s : LockState} (h : LockReachable s) :
    lockInv s := by
  have h2 : Relation.ReflTransGen LockStep lockInit s := h
  clear h
  induction h2 with
  | refl => exact lockInv_init
  | tail _ hstep ih => exact lockInv_step hstep ih

/-- C2: over every reachable interleaving of two concurrent
`synchronize` callers, never are both inside the locked body
(validation, fetch loop, watermark update) at once — so a second
caller's body begins only after the first caller's whole critical
section has exited; moreover, a waiting caller's acquire step is
enabled whenever the lock is free, and no step moves a waiting caller
anywhere but into the body — the second caller waits, it is never
rejected. -/
theorem C2_mutual_exclusion :
    (∀ s, LockReachable s →
      ¬(inBody (s.pc 0) = true ∧ inBody (s.pc 1) = true)) ∧
    (∀ s (i : Fin 2), LockReachable s → s.pc i = SyncPc.start →
      s.holder = none →
      LockStep s
        (LockState.mk (some i) (Function.update s.pc i SyncPc.validate))) ∧
    (∀ s s' (i : Fin 2), LockStep s s' → s.pc i = SyncPc.start →
      s'.pc i = SyncPc.start ∨ s'.pc i = SyncPc.validate) := by
  refine ⟨?_, ?_, ?_⟩
  · rintro s hr ⟨h0, h1⟩
    have inv := lockInv_reachable hr
    have e0 := inv 0 h0
    have e1 := inv 1 h1
    rw [e0] at e1
    have h01 : (0 : Fin 2) = 1 := Option.some.inj e1
    exact absurd h01 (by decide)
  · intro s i hr hp hh
    exact LockStep.acquire s i hh hp
  · intro s s' i hstep hp
    cases hstep with
    | acquire j hh hpj =>
        by_cases hij : i = j
        · subst hij
          right
          simp [Function.update_same]
        · left
          simp [Function.update_noteq hij, hp]
    | validateOk j hh hpj =>
        by_cases hij : i = j
        · subst hij; rw [hp] at hpj; exact SyncPc.noConfusion hpj
        · left; simp [Function.update_noteq hij, hp]
    | validateAbort j hh hpj =>
        by_cases hij : i = j
        · subst hij; rw [hp] at hpj; exact SyncPc.noConfusion hpj
        · left; simp [Function.update_noteq hij, hp]
    | fetchDone j hh hpj =>
        by_cases hij : i = j
        · subst hij; rw [hp] at hpj; exact SyncPc.noConfusion hpj
        · left; simp [Function.update_noteq hij, hp]
    | release j hh hpj =>
        by_cases hij : i = j
        · subst hij; rw [hp] at hpj; exact SyncPc.noConfusion hpj
        · left; simp [Function.update_noteq hij, hp]

/-- Witness for C2: the theorem applied at the initial state — nobody
inside the body — together with the enabled acquire step of caller 0. -/
theorem C2_mutual_exclusion_witness :
    ¬(inBody (lockInit.pc 0) = true ∧ inBody (lockInit.pc 1) = true) ∧
    LockStep lockInit
      (LockState.mk (some 0)
        (Function.update lockInit.pc 0 SyncPc.validate)) :=
  ⟨C2_mutual_exclusion.1 lockInit Relation.ReflTransGen.refl,
    C2_mutual_exclusion.2.1 lockInit 0 Relation.ReflTransGen.refl rfl rfl⟩

end NvdCve
